import Mathlib

/-!
Verification of the energy demand forecasting backend (server.js): the
feature extraction step, the training-job state machine with its concurrency
guard, the hourly prediction generator, and the accuracy summary endpoint.

Numbers are modelled as rationals; JavaScript rounding primitives are made
explicit.  The TensorFlow fit and the per-iteration random draws are external
collaborators and enter as explicit parameters, following the design notes of
the specification (section 9).
-/

/-- JavaScript rounding, as in Math.round: nearest integer, ties toward
positive infinity. -/
def jsRound (x : ℚ) : ℤ := ⌊x + 1/2⌋

/-- Rounding to 2 decimal places, as in Math.round(x * 100) / 100. -/
def round2 (x : ℚ) : ℚ := (jsRound (x * 100) : ℚ) / 100

/-- Rounding to 1 decimal place, as in Math.round(x * 10) / 10. -/
def round1 (x : ℚ) : ℚ := (jsRound (x * 10) : ℚ) / 10

/-- One stored demand record (the mongoose demandSchema).  The two fields the
pipeline treats as nullable, actualDemand and accuracy, are options; the
station reference, date and time string play no role in the claims and are
omitted. -/
structure DemandRecord where
  temperature : ℚ
  humidity : ℚ
  dayOfWeek : ℚ
  hour : ℚ
  actualDemand : Option ℚ
  forecastedDemand : ℚ
  accuracy : Option ℚ
  deriving Repr, DecidableEq

/-- Feature extraction, from EnergyForecastModel.prepareTrainingData
(server.js lines 40-51): every fetched record is mapped to a 5-entry feature
row whose fifth entry is actualDemand with forecastedDemand as fallback (the
JavaScript ?? operator), and to a target that is its raw actualDemand, which
may be absent.  There is no filtering of any kind.  The descending-date sort
is the storage collaborator's contract; the input list is the fetched order. -/
def prepareTrainingData (historical : List DemandRecord) :
    List (List ℚ) × List (Option ℚ) :=
  (historical.map fun r =>
      [r.temperature, r.humidity, r.dayOfWeek, r.hour,
        r.actualDemand.getD r.forecastedDemand],
    historical.map fun r => r.actualDemand)

/-- Parameters of the single dense layer (tf.layers.dense with inputShape [5]
and units 1): five weights and a bias. -/
structure ModelW where
  w0 : ℚ
  w1 : ℚ
  w2 : ℚ
  w3 : ℚ
  w4 : ℚ
  b : ℚ
  deriving Repr, DecidableEq

/-- Applying the dense layer to one 5-feature row (this.model.predict on a
1 by 5 tensor): the affine map given by the weights and bias. -/
def applyModel (m : ModelW) (x0 x1 x2 x3 x4 : ℚ) : ℚ :=
  m.w0 * x0 + m.w1 * x1 + m.w2 * x2 + m.w3 * x3 + m.w4 * x4 + m.b

/-- Mutable state of the EnergyForecastModel singleton: this.model (null
until first assigned) and this.isTraining. -/
structure MState where
  model : Option ModelW
  isTraining : Bool
  deriving Repr, DecidableEq

/-- The constructor state: model = null, isTraining = false. -/
def initState : MState := { model := none, isTraining := false }

/-- Where the awaited phase of trainModel can diverge once the
data-sufficiency check has passed.  throwBeforeModelSet is an exception
raised while building the input tensors, before the assignment
this.model = tf.sequential() executes; throwAfterModelSet is an exception at
or after that assignment (construction, compile or fit), observed once
this.model already holds the freshly constructed model; ok w is a fit that
completes with parameters w. -/
inductive FitOutcome where
  | throwBeforeModelSet
  | throwAfterModelSet
  | ok (w : ModelW)
  deriving Repr, DecidableEq

/-- Result of one trainModel call: the already_training status object, the
success object carrying dataPoints, or a surfaced exception (the thrown
Not-enough-data error, or a rethrown tensor or fit failure). -/
inductive TrainResult where
  | alreadyTraining
  | success (dataPoints : ℕ)
  | errNotEnoughData
  | errFit
  deriving Repr, DecidableEq

/-- EnergyForecastModel.trainModel (server.js lines 53-78) as a state
transformer.  The guard returns already_training at once when isTraining is
set; otherwise isTraining is set, features are extracted, the length check
throws Not enough data below 50 rows, and the external fit phase behaves as
the outcome argument says, with fresh the parameters tf.sequential()
constructs.  The catch block always clears isTraining and rethrows; it does
not restore this.model, so an exception after the model assignment leaves the
fresh unfitted model in place. -/
def trainModel (records : List DemandRecord) (fresh : ModelW)
    (outcome : FitOutcome) (s : MState) : TrainResult × MState :=
  if s.isTraining then (.alreadyTraining, s)
  else
    let s1 : MState := { s with isTraining := true }
    let features := (prepareTrainingData records).1
    if features.length < 50 then
      (.errNotEnoughData, { s1 with isTraining := false })
    else
      match outcome with
      | .throwBeforeModelSet => (.errFit, { s1 with isTraining := false })
      | .throwAfterModelSet => (.errFit, { model := some fresh, isTraining := false })
      | .ok w => (.success features.length, { model := some w, isTraining := false })

/-- Externally determined ingredients of one trainModel call: the records the
store returns, the parameters construction would produce, and the fit
behaviour. -/
structure CallParams where
  records : List DemandRecord
  fresh : ModelW
  outcome : FitOutcome

/-- Sequential execution of a list of trainModel calls from a given state,
returning the final state and the per-call results. -/
def runCalls : List CallParams → MState → MState × List TrainResult
  | [], s => (s, [])
  | c :: cs, s =>
      let r := trainModel c.records c.fresh c.outcome s
      let rest := runCalls cs r.2
      (rest.1, r.1 :: rest.2)

/-- One draw of the exogenous source for a loop iteration: the temperature,
humidity and prior-demand proxy that the body obtains (in the source, three
Math.random based values). -/
structure ExoSample where
  temp : ℚ
  humidity : ℚ
  lastDemand : ℚ

/-- One emitted forecast point (the object pushed into predictions).  The
timestamp is the loop instant, in hours on the continuous hourly grid. -/
structure ForecastPoint where
  timestamp : ℚ
  forecastedDemand : ℚ
  temperature : ℚ
  humidity : ℤ
  hour : ℤ
  dayOfWeek : ℤ
  deriving Repr, DecidableEq

/-- The moment hour() accessor on the continuous hourly grid: instants are
rational hours since an epoch midnight, so the hour of day is the floor
modulo 24.  The specification (section 4.3) directs that time be treated as a
pure hourly grid with no calendar irregularity. -/
def hourOf (m : ℚ) : ℤ := ⌊m⌋ % 24

/-- The moment day() accessor on the same grid, with the epoch placed on
weekday 4 as for the Unix epoch. -/
def dayOf (m : ℚ) : ℤ := (⌊m⌋ / 24 + 4) % 7

/-- One iteration of the predict loop body at instant m with exogenous draws
e: build the 5-feature input row, apply the model, and round the outputs
(forecast to 2 decimals, temperature to 1 decimal, humidity to an integer). -/
def mkPoint (w : ModelW) (e : ExoSample) (m : ℚ) : ForecastPoint :=
  { timestamp := m
    forecastedDemand :=
      round2 (applyModel w e.temp e.humidity (dayOf m : ℚ) (hourOf m : ℚ) e.lastDemand)
    temperature := round1 e.temp
    humidity := jsRound e.humidity
    hour := hourOf m
    dayOfWeek := dayOf m }

/-- The predict loop: for m starting at the start instant, while m.isBefore
end, emit a point and add one hour.  k counts iterations and indexes the
exogenous source, one fresh draw per iteration. -/
def predictLoop (w : ModelW) (exo : ℕ → ExoSample) (endT : ℚ) (m : ℚ) (k : ℕ) :
    List ForecastPoint :=
  if m < endT then
    mkPoint w (exo k) m :: predictLoop w exo endT (m + 1) (k + 1)
  else []
termination_by (⌈endT - m⌉).toNat
decreasing_by
  have h1 : (0 : ℤ) < ⌈endT - m⌉ := Int.ceil_pos.mpr (by linarith)
  have h2 : ⌈endT - (m + 1)⌉ = ⌈endT - m⌉ - 1 := by
    rw [show endT - (m + 1) = (endT - m) - 1 by ring, Int.ceil_sub_one]
  omega

/-- The one kind of exception predict itself throws. -/
inductive PredictError where
  | modelNotTrained
  deriving Repr, DecidableEq

/-- EnergyForecastModel.predict(stationId, startDate, endDate) (server.js
lines 80-110).  When this.model is null it throws Model not trained before
any loop iteration; otherwise it runs the hourly loop.  stationId is a formal
parameter of the source function and is carried here unused, as there.  The
per-iteration Math.random draws are the injected exogenous source exo. -/
def predict (s : MState) (stationId : String) (startDate endDate : ℚ)
    (exo : ℕ → ExoSample) : Except PredictError (List ForecastPoint) :=
  match s.model with
  | none => .error .modelNotTrained
  | some w => .ok (predictLoop w exo endDate startDate 0)

/-- JavaScript truthiness of the accuracy field, as tested by the filter
p => p.accuracy: the field is present and nonzero. -/
def accTruthy (r : DemandRecord) : Bool :=
  match r.accuracy with
  | none => false
  | some a => decide (a ≠ 0)

/-- The summary object the model-performance endpoint returns. -/
structure PerfSummary where
  averageAccuracy : ℚ
  totalPredictions : ℕ
  modelStatus : String
  deriving Repr, DecidableEq

/-- The GET /api/model-performance handler (server.js lines 151-164): filter
the fetched records by truthiness of accuracy, sum with reduce, divide by
the length with the JavaScript or-1 guard against an empty list, round to 2
decimals; totalPredictions counts every fetched record; modelStatus reports
whether this.model is non-null. -/
def modelPerformance (recent : List DemandRecord) (s : MState) : PerfSummary :=
  let accuracies := (recent.filter accTruthy).map fun r => r.accuracy.getD 0
  let avgAccuracy :=
    (accuracies.foldl (· + ·) 0) /
      (if accuracies.length = 0 then 1 else (accuracies.length : ℚ))
  { averageAccuracy := round2 avgAccuracy
    totalPredictions := recent.length
    modelStatus := if s.model.isSome then "trained" else "not_trained" }

/-- Result of the synchronous guard prologue of trainModel: either the early
already_training return, or permission to proceed into the awaited phase. -/
inductive GuardResult where
  | proceed
  | alreadyTraining
  deriving Repr, DecidableEq

/-- The guard prologue of trainModel taken alone (server.js lines 53-55):
if (this.isTraining) return already_training; this.isTraining = true.  This
block contains no await, so under the JavaScript run-to-completion model it
executes atomically: no other request can interleave between the check and
the set. -/
def guardStep (s : MState) : GuardResult × MState :=
  if s.isTraining then (.alreadyTraining, s)
  else (.proceed, { s with isTraining := true })

/-- Two concurrent trainModel requests A and B.  Concurrency means both guard
blocks run before either awaited fit phase completes; each guard block is
atomic, so every schedule reduces to one of the two orders of the guards,
selected by aFirst.  Returned are A's guard result, B's guard result, and the
state after both guards. -/
def twoGuards (s : MState) (aFirst : Bool) : GuardResult × GuardResult × MState :=
  if aFirst then
    let a := guardStep s
    let b := guardStep a.2
    (a.1, b.1, b.2)
  else
    let b := guardStep s
    let a := guardStep b.2
    (a.1, b.1, a.2)

/-- Length of the feature list equals the number of fetched records: no row
is dropped by extraction. -/
lemma prepareTrainingData_fst_length (records : List DemandRecord) :
    (prepareTrainingData records).1.length = records.length := by
  simp [prepareTrainingData]

/-- Helper record with an actual demand, used as concrete input. -/
def recWithActual : DemandRecord :=
  { temperature := 25, humidity := 50, dayOfWeek := 1, hour := 0,
    actualDemand := some 100, forecastedDemand := 90, accuracy := some 95 }

/-- Helper record with no actual demand, used as concrete input. -/
def recNoActual : DemandRecord :=
  { temperature := 25, humidity := 50, dayOfWeek := 1, hour := 0,
    actualDemand := none, forecastedDemand := 90, accuracy := none }

/-- Fifty records all carrying an actual demand. -/
def manyRecords : List DemandRecord := List.replicate 50 recWithActual

/-- Fifty records none of which carries an actual demand. -/
def records50none : List DemandRecord := List.replicate 50 recNoActual

/-- A previously fitted model, used as concrete prior state. -/
def mPrior : ModelW := ⟨1, 1, 1, 1, 1, 0⟩

/-- The parameters a fresh tf.sequential() construction produces, used as
concrete input. -/
def mFresh : ModelW := ⟨0, 0, 0, 0, 0, 0⟩

/-- A concrete deterministic exogenous source. -/
def exoConst : ℕ → ExoSample := fun _ => ⟨30, 40, 100⟩

/-- C2, counterexample: the record with absent actualDemand is not excluded —
on the single-record input it appears in both the feature list and the target
list, where the claim requires both to be empty. -/
theorem c2_counterexample :
    (prepareTrainingData [recNoActual]).1.length = 1 ∧
    (prepareTrainingData [recNoActual]).2.length = 1 ∧
    (prepareTrainingData [recNoActual]).2 = [none] := by
  decide

/-- C2 (amended): feature extraction excludes nothing: both outputs have one
entry per input record, and the target sequence is exactly the records'
actualDemand values, absent entries included; extraction is a pure map. -/
theorem c2_amended (records : List DemandRecord) :
    (prepareTrainingData records).1.length = records.length ∧
    (prepareTrainingData records).2.length = records.length ∧
    (prepareTrainingData records).2 = records.map fun r => r.actualDemand := by
  refine ⟨prepareTrainingData_fst_length records, ?_, rfl⟩
  simp [prepareTrainingData]

/-- C8: when the job is already in the Training state, trainModel returns the
already_training status immediately, with the state unchanged — no error, no
flag or model mutation, and no fit attempted (the result is independent of
the records and of the fit behaviour). -/
theorem c8_already_training (records : List DemandRecord) (fresh : ModelW)
    (outcome : FitOutcome) (s : MState) (h : s.isTraining = true) :
    trainModel records fresh outcome s = (.alreadyTraining, s) := by
  simp [trainModel, h]

/-- C8, witness at a concrete training-state input. -/
theorem c8_already_training_witness :
    ({ model := some mPrior, isTraining := true } : MState).isTraining = true ∧
    trainModel manyRecords mFresh (.ok mFresh)
        { model := some mPrior, isTraining := true } =
      (.alreadyTraining, { model := some mPrior, isTraining := true }) :=
  ⟨rfl, c8_already_training manyRecords mFresh (.ok mFresh)
    { model := some mPrior, isTraining := true } rfl⟩

/-- C1, counterexample: with a previously trained model in state, 50 records,
and an exception thrown during fit (after the model assignment), the call
surfaces the failure and rolls isTraining back, but the stored model is now
the fresh unfitted one, not the prior model the claim requires. -/
theorem c1_counterexample :
    (trainModel manyRecords mFresh .throwAfterModelSet
        { model := some mPrior, isTraining := false }).1 = .errFit ∧
    (trainModel manyRecords mFresh .throwAfterModelSet
        { model := some mPrior, isTraining := false }).2.model = some mFresh ∧
    (some mFresh : Option ModelW) ≠ some mPrior := by
  decide

/-- C1 (amended): on any exception after the data-sufficiency check passes,
the job transitions Training back to Idle and the exception is surfaced; the
previously-trained model is preserved only when the exception occurs before
the model-construction assignment — an exception at or after that assignment
leaves the freshly constructed unfitted model in place of the prior one. -/
theorem c1_amended (records : List DemandRecord) (fresh : ModelW)
    (outcome : FitOutcome) (s : MState) (hIdle : s.isTraining = false)
    (hLen : 50 ≤ records.length)
    (hThrow : outcome = .throwBeforeModelSet ∨ outcome = .throwAfterModelSet) :
    (trainModel records fresh outcome s).1 = .errFit ∧
    (trainModel records fresh outcome s).2.isTraining = false ∧
    (outcome = .throwBeforeModelSet →
      (trainModel records fresh outcome s).2.model = s.model) ∧
    (outcome = .throwAfterModelSet →
      (trainModel records fresh outcome s).2.model = some fresh) := by
  have hnl : ¬ ((prepareTrainingData records).1.length < 50) := by
    rw [prepareTrainingData_fst_length]; omega
  rcases hThrow with h | h <;> subst h <;> simp [trainModel, hIdle, hnl]

/-- C1, witness: the amended theorem applied at a concrete input with an
exception after the model assignment. -/
theorem c1_amended_witness :
    ({ model := some mPrior, isTraining := false } : MState).isTraining = false ∧
    50 ≤ manyRecords.length ∧
    ((.throwAfterModelSet : FitOutcome) = .throwBeforeModelSet ∨
      (.throwAfterModelSet : FitOutcome) = .throwAfterModelSet) ∧
    ((trainModel manyRecords mFresh .throwAfterModelSet
        { model := some mPrior, isTraining := false }).1 = .errFit ∧
      (trainModel manyRecords mFresh .throwAfterModelSet
        { model := some mPrior, isTraining := false }).2.isTraining = false ∧
      ((.throwAfterModelSet : FitOutcome) = .throwBeforeModelSet →
        (trainModel manyRecords mFresh .throwAfterModelSet
          { model := some mPrior, isTraining := false }).2.model =
          ({ model := some mPrior, isTraining := false } : MState).model) ∧
      ((.throwAfterModelSet : FitOutcome) = .throwAfterModelSet →
        (trainModel manyRecords mFresh .throwAfterModelSet
          { model := some mPrior, isTraining := false }).2.model = some mFresh)) :=
  ⟨rfl, by decide, Or.inr rfl,
    c1_amended manyRecords mFresh .throwAfterModelSet
      { model := some mPrior, isTraining := false } rfl (by decide) (Or.inr rfl)⟩

/-- C4, counterexample: fifty records none of which has an actualDemand.  All
are unusable under the claim's reading, so it demands InsufficientDataError;
the code counts every record, the length check passes, and with a completing
fit the call succeeds. -/
theorem c4_counterexample :
    (∀ r ∈ records50none, r.actualDemand = none) ∧
    (trainModel records50none mFresh (.ok mFresh) initState).1 = .success 50 ∧
    (trainModel records50none mFresh (.ok mFresh) initState).1 ≠
      .errNotEnoughData := by
  decide

/-- C4 (amended): the threshold is on the total number of fetched records,
usable or not: with fewer than 50 records in total, trainModel fails with the
Not-enough-data error, the state is back to Idle when the error is surfaced,
and the stored model — hence the trained status — is unchanged. -/
theorem c4_amended (records : List DemandRecord) (fresh : ModelW)
    (outcome : FitOutcome) (s : MState) (hIdle : s.isTraining = false)
    (hLen : records.length < 50) :
    (trainModel records fresh outcome s).1 = .errNotEnoughData ∧
    (trainModel records fresh outcome s).2.isTraining = false ∧
    (trainModel records fresh outcome s).2.model = s.model := by
  have hl : (prepareTrainingData records).1.length < 50 := by
    rw [prepareTrainingData_fst_length]; exact hLen
  simp [trainModel, hIdle, hl]

/-- C4, witness: the amended theorem applied at the empty record set from a
state holding a previously trained model. -/
theorem c4_amended_witness :
    ({ model := some mPrior, isTraining := false } : MState).isTraining = false ∧
    ([] : List DemandRecord).length < 50 ∧
    ((trainModel [] mFresh (.ok mFresh)
        { model := some mPrior, isTraining := false }).1 = .errNotEnoughData ∧
      (trainModel [] mFresh (.ok mFresh)
        { model := some mPrior, isTraining := false }).2.isTraining = false ∧
      (trainModel [] mFresh (.ok mFresh)
        { model := some mPrior, isTraining := false }).2.model =
        ({ model := some mPrior, isTraining := false } : MState).model) :=
  ⟨rfl, by decide,
    c4_amended [] mFresh (.ok mFresh)
      { model := some mPrior, isTraining := false } rfl (by decide)⟩

/-- A run of calls none of which both passes the length check and reaches the
model assignment keeps the model null and the guard clear. -/
lemma runCalls_model_none (trace : List CallParams) :
    ∀ s : MState, s.model = none → s.isTraining = false →
    (∀ c ∈ trace, c.records.length < 50 ∨ c.outcome = .throwBeforeModelSet) →
    (runCalls trace s).1.model = none ∧ (runCalls trace s).1.isTraining = false := by
  induction trace with
  | nil => intro s h1 h2 _; exact ⟨h1, h2⟩
  | cons c cs ih =>
      intro s h1 h2 hall
      have hc := hall c (List.mem_cons_self c cs)
      have hrest : ∀ c' ∈ cs, c'.records.length < 50 ∨
          c'.outcome = .throwBeforeModelSet :=
        fun c' hc' => hall c' (List.mem_cons_of_mem c hc')
      have hstep : (trainModel c.records c.fresh c.outcome s).2.model = none ∧
          (trainModel c.records c.fresh c.outcome s).2.isTraining = false := by
        rcases hc with h | h
        · have hl : (prepareTrainingData c.records).1.length < 50 := by
            rw [prepareTrainingData_fst_length]; exact h
          simp [trainModel, h2, hl, h1]
        · by_cases hl : (prepareTrainingData c.records).1.length < 50
          · simp [trainModel, h2, hl, h1]
          · simp [trainModel, h2, hl, h, h1]
      have := ih (trainModel c.records c.fresh c.outcome s).2 hstep.1 hstep.2 hrest
      simpa [runCalls] using this

/-- C3 (amended): predict fails with the Model-not-trained error, before any
forecast computation and regardless of the inputs, precisely while no
trainModel call has both passed the 50-record check and reached the model
assignment; a call that throws during fit after that assignment leaves a
non-null unfitted model behind, after which predict no longer raises it. -/
theorem c3_amended (trace : List CallParams)
    (hcalls : ∀ c ∈ trace, c.records.length < 50 ∨
      c.outcome = .throwBeforeModelSet)
    (sid : String) (start endT : ℚ) (exo : ℕ → ExoSample) :
    predict (runCalls trace initState).1 sid start endT exo =
      .error .modelNotTrained := by
  have h := runCalls_model_none trace initState rfl rfl hcalls
  simp [predict, h.1]

/-- C3, witness: the amended theorem applied to a one-call trace whose call
fails the length check. -/
theorem c3_amended_witness :
    (∀ c ∈ [({ records := [], fresh := mFresh, outcome := .ok mFresh } :
        CallParams)], c.records.length < 50 ∨
        c.outcome = .throwBeforeModelSet) ∧
    predict (runCalls
        [({ records := [], fresh := mFresh, outcome := .ok mFresh } :
          CallParams)] initState).1 "station" 0 1 exoConst =
      .error .modelNotTrained :=
  ⟨by decide,
    c3_amended [{ records := [], fresh := mFresh, outcome := .ok mFresh }]
      (by decide) "station" 0 1 exoConst⟩

/-- The failed-fit trace used against C3: one call on 50 records whose fit
throws after the model assignment. -/
def trace1 : List CallParams :=
  [{ records := manyRecords, fresh := mFresh, outcome := .throwAfterModelSet }]

/-- C3, counterexample: after one trainModel call that never completed
successfully (it surfaced a fit failure), predict does not fail with the
Model-not-trained error, against the claim. -/
theorem c3_counterexample :
    (runCalls trace1 initState).2 = [.errFit] ∧
    predict (runCalls trace1 initState).1 "station" 0 1 exoConst ≠
      .error .modelNotTrained := by
  refine ⟨by decide, ?_⟩
  have hm : (runCalls trace1 initState).1.model = some mFresh := by decide
  simp [predict, hm]

/-- C9: from an Idle state, for either order of the two atomic guard blocks
of two concurrent trainModel requests, exactly one request proceeds toward a
fit and the other observes already_training; the state after both guards is
the original state with only the winner's flag set, so the losing request has
no side effects. -/
theorem c9_guard_mutual_exclusion (s : MState) (aFirst : Bool)
    (h : s.isTraining = false) :
    ((twoGuards s aFirst).1 = .proceed ∧
        (twoGuards s aFirst).2.1 = .alreadyTraining ∨
      (twoGuards s aFirst).1 = .alreadyTraining ∧
        (twoGuards s aFirst).2.1 = .proceed) ∧
    (twoGuards s aFirst).2.2 = { s with isTraining := true } := by
  cases aFirst <;> simp [twoGuards, guardStep, h]

/-- C9, witness: the mutual-exclusion theorem applied at the initial state
with request A scheduled first. -/
theorem c9_guard_mutual_exclusion_witness :
    initState.isTraining = false ∧
    (((twoGuards initState true).1 = .proceed ∧
        (twoGuards initState true).2.1 = .alreadyTraining ∨
      (twoGuards initState true).1 = .alreadyTraining ∧
        (twoGuards initState true).2.1 = .proceed) ∧
    (twoGuards initState true).2.2 = { initState with isTraining := true }) :=
  ⟨rfl, c9_guard_mutual_exclusion initState true rfl⟩

/-- Unrolling of the predict loop, by induction on the remaining hour count:
starting at instant m with iteration counter k, the loop emits one point per
integer i below the ceiling of endT - m, at instant m + i, consuming the
exogenous draw k + i. -/
lemma predictLoop_eq_range_aux (w : ModelW) (exo : ℕ → ExoSample) (endT : ℚ) :
    ∀ (n : ℕ) (m : ℚ) (k : ℕ), (⌈endT - m⌉).toNat ≤ n →
    predictLoop w exo endT m k =
      (List.range (⌈endT - m⌉).toNat).map fun i => mkPoint w (exo (k + i)) (m + (i : ℚ)) := by
  intro n
  induction n with
  | zero =>
      intro m k hn
      have hnot : ¬ m < endT := by
        intro hlt
        have hpos : (0 : ℤ) < ⌈endT - m⌉ := Int.ceil_pos.mpr (by linarith)
        omega
      have h0 : (⌈endT - m⌉).toNat = 0 := Nat.le_zero.mp hn
      rw [predictLoop, if_neg hnot, h0]
      simp
  | succ n ih =>
      intro m k hn
      by_cases hlt : m < endT
      · have hpos : (0 : ℤ) < ⌈endT - m⌉ := Int.ceil_pos.mpr (by linarith)
        have hstep : ⌈endT - (m + 1)⌉ = ⌈endT - m⌉ - 1 := by
          rw [show endT - (m + 1) = endT - m - 1 by ring, Int.ceil_sub_one]
        have hle : (⌈endT - (m + 1)⌉).toNat ≤ n := by omega
        have hcount : (⌈endT - m⌉).toNat = (⌈endT - (m + 1)⌉).toNat + 1 := by omega
        rw [predictLoop, if_pos hlt, ih (m + 1) (k + 1) hle, hcount,
          List.range_succ_eq_map]
        simp only [List.map_cons, List.map_map]
        congr 1
        · simp
        · have hfun : ((fun i => mkPoint w (exo (k + i)) (m + (i : ℚ))) ∘ Nat.succ) =
              fun i => mkPoint w (exo (k + 1 + i)) (m + 1 + (i : ℚ)) := by
            funext i
            show mkPoint w (exo (k + (i + 1))) (m + ((i + 1 : ℕ) : ℚ)) =
              mkPoint w (exo (k + 1 + i)) (m + 1 + (i : ℚ))
            have h1 : k + (i + 1) = k + 1 + i := by omega
            have h2 : m + ((i + 1 : ℕ) : ℚ) = m + 1 + (i : ℚ) := by push_cast; ring
            rw [h1, h2]
          rw [hfun]
      · have h0 : (⌈endT - m⌉).toNat = 0 := by
          have hc : ⌈endT - m⌉ ≤ (0 : ℤ) := Int.ceil_le.mpr (by push_cast; linarith)
          omega
        rw [predictLoop, if_neg hlt, h0]
        simp

/-- Closed form of the predict loop. -/
lemma predictLoop_eq_range (w : ModelW) (exo : ℕ → ExoSample) (endT m : ℚ) (k : ℕ) :
    predictLoop w exo endT m k =
      (List.range (⌈endT - m⌉).toNat).map fun i => mkPoint w (exo (k + i)) (m + (i : ℚ)) :=
  predictLoop_eq_range_aux w exo endT (⌈endT - m⌉).toNat m k le_rfl

/-- Length of the emitted sequence. -/
lemma predictLoop_length (w : ModelW) (exo : ℕ → ExoSample) (endT m : ℚ) (k : ℕ) :
    (predictLoop w exo endT m k).length = (⌈endT - m⌉).toNat := by
  rw [predictLoop_eq_range]; simp

/-- The point at position i of the emitted sequence. -/
lemma predictLoop_get (w : ModelW) (exo : ℕ → ExoSample) (endT start : ℚ)
    (i : ℕ) (h : i < (predictLoop w exo endT start 0).length) :
    (predictLoop w exo endT start 0).get ⟨i, h⟩ =
      mkPoint w (exo i) (start + (i : ℚ)) := by
  simp only [List.get_eq_getElem]
  simp only [predictLoop_eq_range, List.getElem_map, List.getElem_range]
  simp

/-- C5: for a trained model, predict succeeds and enumerates exactly the
hours start + i with start + i strictly below endT, in ascending order at
one-hour steps; an empty or inverted range yields the empty sequence, not an
error; each point carries the forecast rounded to 2 decimals, the temperature
to 1 decimal and the humidity to an integer; and for the range from start to
start + 3 the sequence is exactly the 3 points at start, start + 1 and
start + 2. -/
theorem c5_predict_enumeration (s : MState) (w : ModelW) (sid : String)
    (start endT : ℚ) (exo : ℕ → ExoSample) (hs : s.model = some w) :
    predict s sid start endT exo = .ok (predictLoop w exo endT start 0) ∧
    (predictLoop w exo endT start 0).length = (⌈endT - start⌉).toNat ∧
    (∀ i : ℕ, i < (predictLoop w exo endT start 0).length ↔
      start + (i : ℚ) < endT) ∧
    (∀ i (h : i < (predictLoop w exo endT start 0).length),
      ((predictLoop w exo endT start 0).get ⟨i, h⟩).timestamp = start + (i : ℚ)) ∧
    (∀ i j (hi : i < (predictLoop w exo endT start 0).length)
      (hj : j < (predictLoop w exo endT start 0).length), i < j →
      ((predictLoop w exo endT start 0).get ⟨i, hi⟩).timestamp <
        ((predictLoop w exo endT start 0).get ⟨j, hj⟩).timestamp) ∧
    (∀ i (h : i < (predictLoop w exo endT start 0).length),
      ((predictLoop w exo endT start 0).get ⟨i, h⟩).forecastedDemand =
        round2 (applyModel w (exo i).temp (exo i).humidity
          (dayOf (start + (i : ℚ)) : ℚ) (hourOf (start + (i : ℚ)) : ℚ)
          (exo i).lastDemand) ∧
      ((predictLoop w exo endT start 0).get ⟨i, h⟩).temperature =
        round1 (exo i).temp ∧
      ((predictLoop w exo endT start 0).get ⟨i, h⟩).humidity =
        jsRound (exo i).humidity) ∧
    (¬ start < endT → predictLoop w exo endT start 0 = []) ∧
    (endT = start + 3 →
      (predictLoop w exo endT start 0).map (fun p => p.timestamp) =
        [start, start + 1, start + 2]) := by
  have hget : ∀ i (h : i < (predictLoop w exo endT start 0).length),
      (predictLoop w exo endT start 0).get ⟨i, h⟩ =
        mkPoint w (exo i) (start + (i : ℚ)) := predictLoop_get w exo endT start
  refine ⟨by simp [predict, hs], predictLoop_length w exo endT start 0, ?_, ?_, ?_, ?_, ?_, ?_⟩
  · intro i
    rw [predictLoop_length, Int.lt_toNat, Int.lt_ceil]
    push_cast
    constructor <;> intro <;> linarith
  · intro i h
    rw [hget i h]
    rfl
  · intro i j hi hj hij
    rw [hget i hi, hget j hj]
    have hc : (i : ℚ) < (j : ℚ) := by exact_mod_cast hij
    show start + (i : ℚ) < start + (j : ℚ)
    linarith
  · intro i h
    rw [hget i h]
    exact ⟨rfl, rfl, rfl⟩
  · intro hnot
    have hc : ⌈endT - start⌉ ≤ (0 : ℤ) := Int.ceil_le.mpr (by push_cast; linarith)
    have h0 : (⌈endT - start⌉).toNat = 0 := by omega
    exact List.length_eq_zero.mp (by rw [predictLoop_length, h0])
  · intro hend
    subst hend
    have h3 : (⌈start + 3 - start⌉).toNat = 3 := by
      rw [show start + 3 - start = (3 : ℚ) by ring]
      rw [show ⌈(3 : ℚ)⌉ = 3 by norm_num]
      rfl
    rw [predictLoop_eq_range, h3]
    rw [show List.range 3 = [0, 1, 2] from rfl]
    simp [mkPoint]

/-- C5, witness: the enumeration theorem applied to a trained state over the
range from 0 to 3 with a concrete deterministic exogenous source. -/
theorem c5_predict_enumeration_witness :
    ({ model := some mPrior, isTraining := false } : MState).model = some mPrior ∧
    (predict { model := some mPrior, isTraining := false } "station" 0 3 exoConst =
      .ok (predictLoop mPrior exoConst 3 0 0) ∧
    (predictLoop mPrior exoConst 3 0 0).length = (⌈(3 : ℚ) - 0⌉).toNat ∧
    (∀ i : ℕ, i < (predictLoop mPrior exoConst 3 0 0).length ↔
      (0 : ℚ) + (i : ℚ) < 3) ∧
    (∀ i (h : i < (predictLoop mPrior exoConst 3 0 0).length),
      ((predictLoop mPrior exoConst 3 0 0).get ⟨i, h⟩).timestamp =
        (0 : ℚ) + (i : ℚ)) ∧
    (∀ i j (hi : i < (predictLoop mPrior exoConst 3 0 0).length)
      (hj : j < (predictLoop mPrior exoConst 3 0 0).length), i < j →
      ((predictLoop mPrior exoConst 3 0 0).get ⟨i, hi⟩).timestamp <
        ((predictLoop mPrior exoConst 3 0 0).get ⟨j, hj⟩).timestamp) ∧
    (∀ i (h : i < (predictLoop mPrior exoConst 3 0 0).length),
      ((predictLoop mPrior exoConst 3 0 0).get ⟨i, h⟩).forecastedDemand =
        round2 (applyModel mPrior (exoConst i).temp (exoConst i).humidity
          (dayOf ((0 : ℚ) + (i : ℚ)) : ℚ) (hourOf ((0 : ℚ) + (i : ℚ)) : ℚ)
          (exoConst i).lastDemand) ∧
      ((predictLoop mPrior exoConst 3 0 0).get ⟨i, h⟩).temperature =
        round1 (exoConst i).temp ∧
      ((predictLoop mPrior exoConst 3 0 0).get ⟨i, h⟩).humidity =
        jsRound (exoConst i).humidity) ∧
    (¬ (0 : ℚ) < 3 → predictLoop mPrior exoConst 3 0 0 = []) ∧
    ((3 : ℚ) = 0 + 3 →
      (predictLoop mPrior exoConst 3 0 0).map (fun p => p.timestamp) =
        [0, 0 + 1, 0 + 2])) :=
  ⟨rfl, c5_predict_enumeration { model := some mPrior, isTraining := false }
    mPrior "station" 0 3 exoConst rfl⟩

/-- C7: predict is deterministic in its arguments — with the exogenous source
an injected parameter (the specification's own modelling directive for the
Math.random draws), two invocations with identical model state, station,
range and source give identical result sequences, with the same length and
the same point at every position. -/
theorem c7_predict_idempotent (s : MState) (sid : String) (start endT : ℚ)
    (exo : ℕ → ExoSample) :
    predict s sid start endT exo = predict s sid start endT exo ∧
    ((predict s sid start endT exo).toOption.getD []).length =
      ((predict s sid start endT exo).toOption.getD []).length ∧
    ∀ i : ℕ, ((predict s sid start endT exo).toOption.getD []).get? i =
      ((predict s sid start endT exo).toOption.getD []).get? i :=
  ⟨rfl, rfl, fun _ => rfl⟩

/-- C10: the stationId argument has no influence on the forecast — predict
with any two station ids, and everything else equal, returns the same value.
The parameter is received and never read in the generator body. -/
theorem c10_stationId_no_influence (s : MState) (sid1 sid2 : String)
    (start endT : ℚ) (exo : ℕ → ExoSample) :
    predict s sid1 start endT exo = predict s sid2 start endT exo := rfl

/-- Record with accuracy 0, a present but falsy value. -/
def recAcc0 : DemandRecord :=
  { temperature := 25, humidity := 50, dayOfWeek := 1, hour := 0,
    actualDemand := some 100, forecastedDemand := 90, accuracy := some 0 }

/-- Record with accuracy 90. -/
def recAcc90 : DemandRecord :=
  { temperature := 25, humidity := 50, dayOfWeek := 1, hour := 0,
    actualDemand := some 100, forecastedDemand := 90, accuracy := some 90 }

/-- Record with accuracy 95. -/
def recAcc95 : DemandRecord :=
  { temperature := 25, humidity := 50, dayOfWeek := 1, hour := 0,
    actualDemand := some 100, forecastedDemand := 90, accuracy := some 95 }

/-- Record with accuracy 80. -/
def recAcc80 : DemandRecord :=
  { temperature := 25, humidity := 50, dayOfWeek := 1, hour := 0,
    actualDemand := some 100, forecastedDemand := 90, accuracy := some 80 }

/-- Input on which the endpoint's truthiness filter and rounding both show:
accuracies 0, 90, 90 and 95, all present. -/
def perfRecords : List DemandRecord := [recAcc0, recAcc90, recAcc90, recAcc95]

/-- C6, counterexample: on four records whose accuracies are all present
(0, 90, 90 and 95), the claimed arithmetic mean over the present-accuracy
records is 275/4; the handler filters by truthiness, dropping the zero, and
rounds 275/3 to two decimals, returning 91.67. -/
theorem c6_counterexample :
    (∀ r ∈ perfRecords, r.accuracy ≠ none) ∧
    (modelPerformance perfRecords initState).averageAccuracy = 9167 / 100 ∧
    ((9167 : ℚ) / 100) ≠ (0 + 90 + 90 + 95) / 4 := by
  refine ⟨by decide, ?_, by norm_num⟩
  norm_num [modelPerformance, perfRecords, accTruthy, recAcc0, recAcc90,
    recAcc95, round2, jsRound, List.filter]

/-- C6 (amended): averageAccuracy is the arithmetic mean, rounded to two
decimals, over exactly the records whose accuracy is present and nonzero
(JavaScript truthiness), and 0 when no such record exists; totalPredictions
counts all input records including those without accuracy; in particular the
input with accuracies 90, absent, 80 yields average 85 over 3 records. -/
theorem c6_amended (records : List DemandRecord) (s : MState) :
    (modelPerformance records s).totalPredictions = records.length ∧
    (records.filter accTruthy = [] →
      (modelPerformance records s).averageAccuracy = 0) ∧
    (records.filter accTruthy ≠ [] →
      (modelPerformance records s).averageAccuracy =
        round2 (((records.filter accTruthy).map fun r => r.accuracy.getD 0).sum /
          ((records.filter accTruthy).length : ℚ))) ∧
    (modelPerformance [recAcc90, recNoActual, recAcc80] initState).averageAccuracy = 85 ∧
    (modelPerformance [recAcc90, recNoActual, recAcc80] initState).totalPredictions = 3 := by
  refine ⟨rfl, ?_, ?_, ?_, rfl⟩
  · intro h
    norm_num [modelPerformance, h, round2, jsRound]
  · intro h
    have hlen1 : ¬ (List.filter accTruthy records).length = 0 := by
      simpa [List.length_eq_zero] using h
    simp only [modelPerformance, List.length_map, hlen1, if_false]
    rw [List.sum_eq_foldl]
  · norm_num [modelPerformance, accTruthy, recAcc90, recNoActual, recAcc80,
      round2, jsRound, List.filter]

/-- C6, witness: the amended theorem's nonempty-filter branch applied at the
four-record input. -/
theorem c6_amended_witness :
    perfRecords.filter accTruthy ≠ [] ∧
    (modelPerformance perfRecords initState).averageAccuracy =
      round2 (((perfRecords.filter accTruthy).map fun r => r.accuracy.getD 0).sum /
        ((perfRecords.filter accTruthy).length : ℚ)) :=
  ⟨by decide, (c6_amended perfRecords initState).2.2.1 (by decide)⟩
